/-
  Verification of the payment_service webhook ingestion pipeline.

  The definitions below are a shallow embedding of the webhook route module
  (`router.post('/stripe', ...)`, `router.post('/paypal', ...)` and the
  `handle*` functions) together with the signature-verification entry points
  of the Stripe and PayPal service modules.  External collaborators (the
  Stripe SDK's `webhooks.constructEvent`, the `node-fetch` call to the
  identity/auth service, and PayPal's remote verification API) are modelled
  as an explicit environment `Env`; everything the route code itself does is
  translated directly from the source.

  Observable state is collected in `St`: the three entity collections
  (payments, subscriptions, customers), the idempotency ledger, the set of
  durably persisted writes, the list of outbound PATCH dispatch attempts,
  and the log.  The source handlers only ever log and (in three cases)
  issue a single PATCH to the auth service; none of them reads or writes
  entities, the ledger, or persistent storage — those appear in the model so
  that the spec's claims about them can be stated and settled.
-/
import Mathlib

namespace PaymentService

/-- Metadata object attached to a Stripe subscription / checkout session.
In JS the fields may be `undefined`, hence `Option`. -/
structure Metadata where
  userId : Option String
  planId : Option String
  deriving DecidableEq, Repr

/-- The `event.data.object` of a Stripe event (resp. `resource` of a PayPal
event): the fields the webhook handlers actually read. -/
structure EventObject where
  id : String
  metadata : Option Metadata
  deriving DecidableEq, Repr

/-- A parsed Stripe event as returned by `stripe.webhooks.constructEvent`. -/
structure StripeEvent where
  type : String
  object : EventObject
  deriving DecidableEq, Repr

/-- Outcome of the `node-fetch` PATCH call to the auth service:
either a response with a status code (`response.ok` is status 200..299)
or a thrown network error. -/
inductive FetchOutcome
  | ok (status : Nat)
  | networkError (msg : String)
  deriving DecidableEq, Repr

/-- An outbound PATCH request issued to the auth service
(`PATCH {authServiceUrl}/auth/users/{userId}/plan` with body `{planId}`). -/
structure PatchRequest where
  url : String
  planId : String
  deriving DecidableEq, Repr

/-- Inbound request to `POST /api/webhooks/stripe`:
`req.headers['stripe-signature']` (absent headers are `none`) and the raw
body handed to signature verification. -/
structure StripeRequest where
  signature : Option String
  rawBody : String
  deriving DecidableEq, Repr

/-- Inbound request to `POST /api/webhooks/paypal`: the route destructures
`{ event_type, resource }` from the JSON body.  No signature header is ever
read by the route, but the raw transmission headers are carried here so that
claims about invalid-signature requests can be stated. -/
structure PaypalRequest where
  eventType : String
  resource : EventObject
  transmissionId : String
  transmissionSig : String
  deriving DecidableEq, Repr

/-- The three entity collections of the data model (id → status or record).
The webhook route contains no persistence code, so no handler reads or
writes these; they are carried so the claims about entity state are
statable. -/
structure Entities where
  payments : List (String × String)
  subscriptions : List (String × String)
  customers : List (String × String)
  deriving DecidableEq, Repr

/-- Observable state threaded through a webhook request: entities, the
idempotency ledger keyed by (provider, eventId), the set of durably
persisted writes, the outbound dispatch attempts, and the log lines. -/
structure St where
  entities : Entities
  ledger : List (String × String)
  persisted : List String
  dispatches : List PatchRequest
  log : List String
  deriving DecidableEq, Repr

/-- External collaborators of the route module: the auth-service base URL
(`process.env.AUTH_SERVICE_URL`), the fetch call, the Stripe SDK signature
check (`stripe.webhooks.constructEvent`, which returns the parsed event or
throws), and the ground truth of PayPal's remote signature verification
(which the PayPal service module would consult; whether the route does is
part of what is being verified). -/
structure Env where
  authServiceUrl : String
  fetchPatch : String → String → FetchOutcome
  verifyStripe : String → String → Except String StripeEvent
  paypalVerify : PaypalRequest → Bool

/-- Append a log line. -/
def logLine (s : St) (m : String) : St :=
  { s with log := s.log ++ [m] }

/-- `handlePaymentIntentSucceeded`: logs; all database work is TODO. -/
def handlePaymentIntentSucceeded (o : EventObject) (s : St) : St :=
  logLine s ("Payment intent succeeded: " ++ o.id)

/-- `handlePaymentIntentFailed`: logs; all database work is TODO. -/
def handlePaymentIntentFailed (o : EventObject) (s : St) : St :=
  logLine s ("Payment intent failed: " ++ o.id)

/-- `handleInvoicePaymentSucceeded`: logs; all database work is TODO. -/
def handleInvoicePaymentSucceeded (o : EventObject) (s : St) : St :=
  logLine s ("Invoice payment succeeded: " ++ o.id)

/-- `handleInvoicePaymentFailed`: logs; all database work is TODO. -/
def handleInvoicePaymentFailed (o : EventObject) (s : St) : St :=
  logLine s ("Invoice payment failed: " ++ o.id)

/-- Shared body of the three handlers that propagate the plan to the auth
service: extract `userId`/`planId` from metadata; when both are present,
issue one PATCH to `{authServiceUrl}/auth/users/{userId}/plan` and log the
outcome (errors caught and logged, never rethrown); otherwise log a
warning.  `fetchOutcomeLog` selects the log line the handler's internal
`if (!response.ok) ... catch (err) ...` produces for a fetch outcome. -/
def fetchOutcomeLog (u p : String) (r : FetchOutcome) : String :=
  match r with
  | FetchOutcome.ok status =>
    if 200 ≤ status ∧ status < 300 then
      "User " ++ u ++ " plan updated to " ++ p ++ " in auth service."
    else "Failed to update user plan in auth service"
  | FetchOutcome.networkError _ => "PATCH request failed"

def propagatePlan (env : Env) (o : EventObject) (missingMsg : String)
    (s : St) : St :=
  match o.metadata.bind (·.userId), o.metadata.bind (·.planId) with
  | some u, some p =>
    let url := env.authServiceUrl ++ "/auth/users/" ++ u ++ "/plan"
    logLine { s with dispatches := s.dispatches ++ [⟨url, p⟩] }
      (fetchOutcomeLog u p (env.fetchPatch url p))
  | _, _ => logLine s missingMsg

/-- `handleCheckoutSessionCompleted`: logs, then propagates the plan from
session metadata (single fetch, errors swallowed). -/
def handleCheckoutSessionCompleted (env : Env) (o : EventObject)
    (s : St) : St :=
  let s := logLine s ("Checkout session completed: " ++ o.id)
  propagatePlan env o "userId or planId missing in session metadata." s

/-- `handleSubscriptionCreated`: logs the event, then propagates the plan
from subscription metadata (single fetch, errors swallowed); saving the
subscription to the database is a TODO. -/
def handleSubscriptionCreated (env : Env) (o : EventObject) (s : St) : St :=
  let s := logLine s "Stripe webhook event"
  propagatePlan env o "userId or planId missing in subscription metadata." s

/-- `handleSubscriptionUpdated`: same shape as `handleSubscriptionCreated`. -/
def handleSubscriptionUpdated (env : Env) (o : EventObject) (s : St) : St :=
  let s := logLine s "Stripe webhook event"
  propagatePlan env o "userId or planId missing in subscription metadata." s

/-- `handleSubscriptionDeleted`: logs; all database work is TODO. -/
def handleSubscriptionDeleted (o : EventObject) (s : St) : St :=
  logLine s ("Subscription deleted: " ++ o.id)

/-- `handleSubscriptionTrialWillEnd`: logs; all work is TODO. -/
def handleSubscriptionTrialWillEnd (o : EventObject) (s : St) : St :=
  logLine s ("Subscription trial will end: " ++ o.id)

/-- The `switch (event.type)` of the Stripe route: dispatch to the matching
handler, or log `Unhandled Stripe event type` in the default case. -/
def dispatchStripeEvent (env : Env) (e : StripeEvent) (s : St) : St :=
  match e.type with
  | "payment_intent.succeeded" => handlePaymentIntentSucceeded e.object s
  | "payment_intent.payment_failed" => handlePaymentIntentFailed e.object s
  | "invoice.payment_succeeded" => handleInvoicePaymentSucceeded e.object s
  | "invoice.payment_failed" => handleInvoicePaymentFailed e.object s
  | "checkout.session.completed" =>
      handleCheckoutSessionCompleted env e.object s
  | "customer.subscription.created" =>
      handleSubscriptionCreated env e.object s
  | "customer.subscription.updated" =>
      handleSubscriptionUpdated env e.object s
  | "customer.subscription.deleted" => handleSubscriptionDeleted e.object s
  | "customer.subscription.trial_will_end" =>
      handleSubscriptionTrialWillEnd e.object s
  | t => logLine s ("Unhandled Stripe event type: " ++ t)

/-- Response body: `{received:true}` or `{error: msg}`. -/
inductive RespBody
  | received
  | errorMsg (msg : String)
  deriving DecidableEq, Repr

/-- HTTP response sent back to the provider. -/
structure HttpResponse where
  status : Nat
  body : RespBody
  deriving DecidableEq, Repr

/-- `POST /api/webhooks/stripe`: reject 400 when the `stripe-signature`
header is missing; verify the signature via the Stripe service (reject 400
when it throws); otherwise log, dispatch on the event type, and answer
`{received:true}` with 200. -/
def processStripeWebhook (env : Env) (req : StripeRequest) (s : St) :
    St × HttpResponse :=
  match req.signature with
  | none =>
    (logLine s "No Stripe signature found in webhook",
     ⟨400, RespBody.errorMsg "No signature found"⟩)
  | some sig =>
    match env.verifyStripe req.rawBody sig with
    | Except.error _ =>
      (logLine s "Webhook signature verification failed",
       ⟨400, RespBody.errorMsg "Invalid signature"⟩)
    | Except.ok event =>
      let s1 := logLine s ("Processing Stripe webhook: " ++ event.type)
      (dispatchStripeEvent env event s1, ⟨200, RespBody.received⟩)

/-- `handlePayPalPaymentCompleted`: logs; all database work is TODO. -/
def handlePayPalPaymentCompleted (o : EventObject) (s : St) : St :=
  logLine s ("PayPal payment completed: " ++ o.id)

/-- `handlePayPalPaymentDenied`: logs; all database work is TODO. -/
def handlePayPalPaymentDenied (o : EventObject) (s : St) : St :=
  logLine s ("PayPal payment denied: " ++ o.id)

/-- `handlePayPalSubscriptionCreated`: logs; all database work is TODO. -/
def handlePayPalSubscriptionCreated (o : EventObject) (s : St) : St :=
  logLine s ("PayPal subscription created: " ++ o.id)

/-- `handlePayPalSubscriptionActivated`: logs; all database work is TODO. -/
def handlePayPalSubscriptionActivated (o : EventObject) (s : St) : St :=
  logLine s ("PayPal subscription activated: " ++ o.id)

/-- `handlePayPalSubscriptionCancelled`: logs; all database work is TODO. -/
def handlePayPalSubscriptionCancelled (o : EventObject) (s : St) : St :=
  logLine s ("PayPal subscription cancelled: " ++ o.id)

/-- `handlePayPalSubscriptionExpired`: logs; all database work is TODO. -/
def handlePayPalSubscriptionExpired (o : EventObject) (s : St) : St :=
  logLine s ("PayPal subscription expired: " ++ o.id)

/-- `handlePayPalSubscriptionPaymentCompleted`: logs; DB work is TODO. -/
def handlePayPalSubscriptionPaymentCompleted (o : EventObject) (s : St) :
    St :=
  logLine s ("PayPal subscription payment completed: " ++ o.id)

/-- `handlePayPalSubscriptionPaymentFailed`: logs; DB work is TODO. -/
def handlePayPalSubscriptionPaymentFailed (o : EventObject) (s : St) : St :=
  logLine s ("PayPal subscription payment failed: " ++ o.id)

/-- The `switch (event_type)` of the PayPal route. -/
def dispatchPaypalEvent (ty : String) (o : EventObject) (s : St) : St :=
  match ty with
  | "PAYMENT.CAPTURE.COMPLETED" => handlePayPalPaymentCompleted o s
  | "PAYMENT.CAPTURE.DENIED" => handlePayPalPaymentDenied o s
  | "BILLING.SUBSCRIPTION.CREATED" => handlePayPalSubscriptionCreated o s
  | "BILLING.SUBSCRIPTION.ACTIVATED" =>
      handlePayPalSubscriptionActivated o s
  | "BILLING.SUBSCRIPTION.CANCELLED" =>
      handlePayPalSubscriptionCancelled o s
  | "BILLING.SUBSCRIPTION.EXPIRED" => handlePayPalSubscriptionExpired o s
  | "BILLING.SUBSCRIPTION.PAYMENT.COMPLETED" =>
      handlePayPalSubscriptionPaymentCompleted o s
  | "BILLING.SUBSCRIPTION.PAYMENT.FAILED" =>
      handlePayPalSubscriptionPaymentFailed o s
  | t => logLine s ("Unhandled PayPal event type: " ++ t)

/-- `POST /api/webhooks/paypal`: no signature verification of any kind —
the route destructures the body, logs, dispatches on `event_type`, and
always answers `{received:true}` with 200. -/
def processPaypalWebhook (req : PaypalRequest) (s : St) :
    St × HttpResponse :=
  let s1 := logLine s ("Processing PayPal webhook: " ++ req.eventType)
  (dispatchPaypalEvent req.eventType req.resource s1, ⟨200, RespBody.received⟩)

/-- The event types the Stripe route's switch handles (its case labels). -/
def stripeHandledTypes : List String :=
  ["payment_intent.succeeded", "payment_intent.payment_failed",
   "invoice.payment_succeeded", "invoice.payment_failed",
   "checkout.session.completed", "customer.subscription.created",
   "customer.subscription.updated", "customer.subscription.deleted",
   "customer.subscription.trial_will_end"]

/-- The event types the PayPal route's switch handles (its case labels). -/
def paypalHandledTypes : List String :=
  ["PAYMENT.CAPTURE.COMPLETED", "PAYMENT.CAPTURE.DENIED",
   "BILLING.SUBSCRIPTION.CREATED", "BILLING.SUBSCRIPTION.ACTIVATED",
   "BILLING.SUBSCRIPTION.CANCELLED", "BILLING.SUBSCRIPTION.EXPIRED",
   "BILLING.SUBSCRIPTION.PAYMENT.COMPLETED",
   "BILLING.SUBSCRIPTION.PAYMENT.FAILED"]

/-- `t` has the same entities, idempotency ledger and persisted set as `s`:
the parts of the state the webhook route never writes. -/
def sameCore (s t : St) : Prop :=
  t.entities = s.entities ∧ t.ledger = s.ledger ∧ t.persisted = s.persisted

lemma sameCore_refl (s : St) : sameCore s s := ⟨rfl, rfl, rfl⟩

lemma sameCore_trans {s t u : St} (h1 : sameCore s t) (h2 : sameCore t u) :
    sameCore s u :=
  ⟨h2.1.trans h1.1, h2.2.1.trans h1.2.1, h2.2.2.trans h1.2.2⟩

lemma sameCore_logLine (s : St) (m : String) : sameCore s (logLine s m) :=
  ⟨rfl, rfl, rfl⟩

lemma sameCore_propagatePlan (env : Env) (o : EventObject) (m : String)
    (s : St) : sameCore s (propagatePlan env o m s) := by
  unfold propagatePlan
  split
  · exact ⟨rfl, rfl, rfl⟩
  · exact sameCore_logLine ..

lemma sameCore_dispatchStripeEvent (env : Env) (e : StripeEvent) (s : St) :
    sameCore s (dispatchStripeEvent env e s) := by
  unfold dispatchStripeEvent
  split
  all_goals
    first
    | exact sameCore_logLine ..
    | exact sameCore_trans (sameCore_logLine ..) (sameCore_propagatePlan ..)

lemma sameCore_dispatchPaypalEvent (ty : String) (o : EventObject)
    (s : St) : sameCore s (dispatchPaypalEvent ty o s) := by
  unfold dispatchPaypalEvent
  split
  all_goals exact sameCore_logLine ..

lemma sameCore_processStripeWebhook (env : Env) (req : StripeRequest)
    (s : St) : sameCore s (processStripeWebhook env req s).1 := by
  unfold processStripeWebhook
  repeat' split
  · exact sameCore_logLine ..
  · exact sameCore_logLine ..
  · exact sameCore_trans (sameCore_logLine ..)
      (sameCore_dispatchStripeEvent ..)

lemma sameCore_processPaypalWebhook (req : PaypalRequest) (s : St) :
    sameCore s (processPaypalWebhook req s).1 :=
  sameCore_trans (sameCore_logLine ..) (sameCore_dispatchPaypalEvent ..)

/-- C1: processing any inbound webhook event twice (a provider retry)
leaves every Payment, Subscription and Customer entity in the same state as
processing it once — on either endpoint.  (In this code base the handlers
never write entity state at all, so both sides equal the initial
entities.) -/
theorem c1_reconcile_idempotent_on_entities (env : Env)
    (reqS : StripeRequest) (reqP : PaypalRequest) (s : St) :
    ((processStripeWebhook env reqS
        (processStripeWebhook env reqS s).1).1).entities =
      ((processStripeWebhook env reqS s).1).entities ∧
    ((processPaypalWebhook reqP
        (processPaypalWebhook reqP s).1).1).entities =
      ((processPaypalWebhook reqP s).1).entities := by
  exact ⟨(sameCore_processStripeWebhook env reqS _).1,
         (sameCore_processPaypalWebhook reqP _).1⟩

/-- Empty entity collections (no Payment, Subscription or Customer). -/
def emptyEntities : Entities := ⟨[], [], []⟩

/-- Initial state: no entities, empty ledger, nothing persisted, no
dispatches, empty log. -/
def st0 : St := ⟨emptyEntities, [], [], [], []⟩

/-- Environment in which everything external fails: the fetch throws, the
Stripe SDK rejects every signature, PayPal remote verification reports the
signature invalid. -/
def envAllFail : Env :=
  ⟨"http://auth", fun _ _ => FetchOutcome.networkError "ECONNREFUSED",
   fun _ _ => Except.error "bad signature", fun _ => false⟩

/-- A Stripe request carrying some signature header and raw body. -/
def reqStripeSigned : StripeRequest := ⟨some "t=1.v1=abc", "body"⟩

/-- Metadata carrying userId u1 and planId pro. -/
def mdU1Pro : Metadata := ⟨some "u1", some "pro"⟩

/-- C10: a POST to the Stripe webhook endpoint without a stripe-signature
header is answered 400 with error No signature found; no signature
verification is performed and no event handler runs (the result does not
depend on the environment, and entities, dispatches, ledger and persisted
writes are untouched). -/
theorem c10_missing_signature_rejected (env env2 : Env)
    (req : StripeRequest) (s : St) (h : req.signature = none) :
    (processStripeWebhook env req s).2 =
      ⟨400, RespBody.errorMsg "No signature found"⟩ ∧
    ((processStripeWebhook env req s).1).entities = s.entities ∧
    ((processStripeWebhook env req s).1).dispatches = s.dispatches ∧
    sameCore s (processStripeWebhook env req s).1 ∧
    processStripeWebhook env req s = processStripeWebhook env2 req s := by
  unfold processStripeWebhook
  rw [h]
  exact ⟨rfl, rfl, rfl, ⟨rfl, rfl, rfl⟩, rfl⟩

/-- Witness for C10 at a concrete unsigned request. -/
theorem c10_missing_signature_rejected_witness :
    (processStripeWebhook envAllFail ⟨none, "body"⟩ st0).2 =
      ⟨400, RespBody.errorMsg "No signature found"⟩ ∧
    ((processStripeWebhook envAllFail ⟨none, "body"⟩ st0).1).entities =
      st0.entities ∧
    ((processStripeWebhook envAllFail ⟨none, "body"⟩ st0).1).dispatches =
      st0.dispatches ∧
    sameCore st0 (processStripeWebhook envAllFail ⟨none, "body"⟩ st0).1 ∧
    processStripeWebhook envAllFail ⟨none, "body"⟩ st0 =
      processStripeWebhook envAllFail ⟨none, "body"⟩ st0 :=
  c10_missing_signature_rejected envAllFail envAllFail ⟨none, "body"⟩ st0 rfl

/-- A PayPal webhook request whose transmission signature is garbage (the
remote verification in `envAllFail` reports it invalid). -/
def paypalReqInvalidSig : PaypalRequest :=
  ⟨"PAYMENT.CAPTURE.COMPLETED", ⟨"cap_1", none⟩, "tx_1", "garbage"⟩

/-- C2 counterexample: a PayPal webhook request whose signature is invalid
is NOT rejected — the route performs no verification and answers 200, so
the claim that invalid-signature requests are rejected for either provider
is false. -/
theorem c2_counterexample :
    envAllFail.paypalVerify paypalReqInvalidSig = false ∧
    (processPaypalWebhook paypalReqInvalidSig st0).2.status = 200 ∧
    ¬ 400 ≤ (processPaypalWebhook paypalReqInvalidSig st0).2.status := by
  decide

/-- C2 amended: a Stripe webhook request whose signature fails verification
is rejected 400 (Invalid signature) with entities, ledger and persisted
writes untouched; the PayPal endpoint performs no signature verification,
so an invalid-signature PayPal request is still processed and acknowledged
200 — though it, too, changes no entity state and creates no idempotency
record (the handlers only log). -/
theorem c2_amended_invalid_signature (env : Env) (req : StripeRequest)
    (sig msg : String) (s : St) (reqP : PaypalRequest)
    (hs : req.signature = some sig)
    (hv : env.verifyStripe req.rawBody sig = Except.error msg)
    (_hp : env.paypalVerify reqP = false) :
    (processStripeWebhook env req s).2 =
      ⟨400, RespBody.errorMsg "Invalid signature"⟩ ∧
    sameCore s (processStripeWebhook env req s).1 ∧
    ((processStripeWebhook env req s).1).dispatches = s.dispatches ∧
    (processPaypalWebhook reqP s).2.status = 200 ∧
    sameCore s (processPaypalWebhook reqP s).1 := by
  have hstep : processStripeWebhook env req s =
      (logLine s "Webhook signature verification failed",
       ⟨400, RespBody.errorMsg "Invalid signature"⟩) := by
    simp only [processStripeWebhook, hs, hv]
  rw [hstep]
  exact ⟨rfl, ⟨rfl, rfl, rfl⟩, rfl, rfl, sameCore_processPaypalWebhook reqP s⟩

/-- Witness for C2 amended: the failing environment rejects the concrete
signed Stripe request, and the concrete invalid PayPal request is acked. -/
theorem c2_amended_invalid_signature_witness :
    (processStripeWebhook envAllFail reqStripeSigned st0).2 =
      ⟨400, RespBody.errorMsg "Invalid signature"⟩ ∧
    sameCore st0 (processStripeWebhook envAllFail reqStripeSigned st0).1 ∧
    ((processStripeWebhook envAllFail reqStripeSigned st0).1).dispatches =
      st0.dispatches ∧
    (processPaypalWebhook paypalReqInvalidSig st0).2.status = 200 ∧
    sameCore st0 (processPaypalWebhook paypalReqInvalidSig st0).1 :=
  c2_amended_invalid_signature envAllFail reqStripeSigned "t=1.v1=abc"
    "bad signature" st0 paypalReqInvalidSig rfl rfl rfl

lemma dispatchStripeEvent_unhandled (env : Env) (e : StripeEvent) (s : St)
    (h : e.type ∉ stripeHandledTypes) :
    dispatchStripeEvent env e s =
      logLine s ("Unhandled Stripe event type: " ++ e.type) := by
  unfold dispatchStripeEvent
  split
  all_goals simp_all [stripeHandledTypes]

lemma dispatchPaypalEvent_unhandled (ty : String) (o : EventObject)
    (s : St) (h : ty ∉ paypalHandledTypes) :
    dispatchPaypalEvent ty o s =
      logLine s ("Unhandled PayPal event type: " ++ ty) := by
  unfold dispatchPaypalEvent
  split
  all_goals simp_all [paypalHandledTypes]

/-- C3: an event whose provider type string is outside the mapping table is
logged (Unhandled ... event type), acknowledged with 200 and
`{received:true}`, and mutates no entity — on both endpoints.  The Stripe
side assumes the request passed signature verification; the PayPal side has
no precondition. -/
theorem c3_unrecognized_event_acked_unchanged (env : Env)
    (req : StripeRequest) (sig : String) (e : StripeEvent) (s : St)
    (reqP : PaypalRequest)
    (hs : req.signature = some sig)
    (hv : env.verifyStripe req.rawBody sig = Except.ok e)
    (he : e.type ∉ stripeHandledTypes)
    (hp : reqP.eventType ∉ paypalHandledTypes) :
    (processStripeWebhook env req s).2 = ⟨200, RespBody.received⟩ ∧
    ((processStripeWebhook env req s).1).log =
      s.log ++ ["Processing Stripe webhook: " ++ e.type,
                "Unhandled Stripe event type: " ++ e.type] ∧
    sameCore s (processStripeWebhook env req s).1 ∧
    ((processStripeWebhook env req s).1).dispatches = s.dispatches ∧
    (processPaypalWebhook reqP s).2 = ⟨200, RespBody.received⟩ ∧
    ((processPaypalWebhook reqP s).1).log =
      s.log ++ ["Processing PayPal webhook: " ++ reqP.eventType,
                "Unhandled PayPal event type: " ++ reqP.eventType] ∧
    sameCore s (processPaypalWebhook reqP s).1 ∧
    ((processPaypalWebhook reqP s).1).dispatches = s.dispatches := by
  have hstep : processStripeWebhook env req s =
      (logLine (logLine s ("Processing Stripe webhook: " ++ e.type))
        ("Unhandled Stripe event type: " ++ e.type),
       ⟨200, RespBody.received⟩) := by
    simp only [processStripeWebhook, hs, hv]
    rw [dispatchStripeEvent_unhandled env e _ he]
  have hstepP : processPaypalWebhook reqP s =
      (logLine (logLine s ("Processing PayPal webhook: " ++ reqP.eventType))
        ("Unhandled PayPal event type: " ++ reqP.eventType),
       ⟨200, RespBody.received⟩) := by
    show (dispatchPaypalEvent reqP.eventType reqP.resource
        (logLine s ("Processing PayPal webhook: " ++ reqP.eventType)),
        (⟨200, RespBody.received⟩ : HttpResponse)) = _
    rw [dispatchPaypalEvent_unhandled reqP.eventType reqP.resource _ hp]
  rw [hstep, hstepP]
  refine ⟨rfl, ?_, ⟨rfl, rfl, rfl⟩, rfl, rfl, ?_, ⟨rfl, rfl, rfl⟩, rfl⟩
  · simp [logLine]
  · simp [logLine]

/-- Witness for C3: the concrete unknown type strings are outside both
tables; the concrete requests are acknowledged unchanged. -/
theorem c3_unrecognized_event_acked_unchanged_witness :
    (processStripeWebhook
        ⟨"http://auth", fun _ _ => FetchOutcome.ok 200,
         fun _ _ => Except.ok ⟨"charge.refunded", ⟨"ch_1", none⟩⟩,
         fun _ => true⟩ reqStripeSigned st0).2 =
      ⟨200, RespBody.received⟩ ∧
    ((processStripeWebhook
        ⟨"http://auth", fun _ _ => FetchOutcome.ok 200,
         fun _ _ => Except.ok ⟨"charge.refunded", ⟨"ch_1", none⟩⟩,
         fun _ => true⟩ reqStripeSigned st0).1).log =
      st0.log ++ ["Processing Stripe webhook: " ++ "charge.refunded",
                  "Unhandled Stripe event type: " ++ "charge.refunded"] ∧
    sameCore st0 (processStripeWebhook
        ⟨"http://auth", fun _ _ => FetchOutcome.ok 200,
         fun _ _ => Except.ok ⟨"charge.refunded", ⟨"ch_1", none⟩⟩,
         fun _ => true⟩ reqStripeSigned st0).1 ∧
    ((processStripeWebhook
        ⟨"http://auth", fun _ _ => FetchOutcome.ok 200,
         fun _ _ => Except.ok ⟨"charge.refunded", ⟨"ch_1", none⟩⟩,
         fun _ => true⟩ reqStripeSigned st0).1).dispatches =
      st0.dispatches ∧
    (processPaypalWebhook ⟨"CHECKOUT.ORDER.APPROVED", ⟨"o_1", none⟩,
        "tx_2", "sig"⟩ st0).2 = ⟨200, RespBody.received⟩ ∧
    ((processPaypalWebhook ⟨"CHECKOUT.ORDER.APPROVED", ⟨"o_1", none⟩,
        "tx_2", "sig"⟩ st0).1).log =
      st0.log ++ ["Processing PayPal webhook: " ++ "CHECKOUT.ORDER.APPROVED",
                  "Unhandled PayPal event type: " ++
                    "CHECKOUT.ORDER.APPROVED"] ∧
    sameCore st0 (processPaypalWebhook ⟨"CHECKOUT.ORDER.APPROVED",
        ⟨"o_1", none⟩, "tx_2", "sig"⟩ st0).1 ∧
    ((processPaypalWebhook ⟨"CHECKOUT.ORDER.APPROVED", ⟨"o_1", none⟩,
        "tx_2", "sig"⟩ st0).1).dispatches = st0.dispatches :=
  c3_unrecognized_event_acked_unchanged
    ⟨"http://auth", fun _ _ => FetchOutcome.ok 200,
     fun _ _ => Except.ok ⟨"charge.refunded", ⟨"ch_1", none⟩⟩,
     fun _ => true⟩
    reqStripeSigned "t=1.v1=abc" ⟨"charge.refunded", ⟨"ch_1", none⟩⟩ st0
    ⟨"CHECKOUT.ORDER.APPROVED", ⟨"o_1", none⟩, "tx_2", "sig"⟩
    rfl rfl (by decide) (by decide)

lemma processStripeWebhook_verified_resp (env : Env) (req : StripeRequest)
    (sig : String) (e : StripeEvent) (s : St)
    (hs : req.signature = some sig)
    (hv : env.verifyStripe req.rawBody sig = Except.ok e) :
    (processStripeWebhook env req s).2 = ⟨200, RespBody.received⟩ := by
  simp only [processStripeWebhook, hs, hv]

/-- Event fixture: a successful payment intent. -/
def evtPaymentSucceeded : StripeEvent :=
  ⟨"payment_intent.succeeded", ⟨"pi_1", none⟩⟩

/-- Environment whose Stripe verification accepts and returns the
payment-succeeded event and whose fetch succeeds. -/
def envPaymentOk : Env :=
  ⟨"http://auth", fun _ _ => FetchOutcome.ok 200,
   fun _ _ => Except.ok evtPaymentSucceeded, fun _ => true⟩

/-- C4 (code-bug evaluation): a verified payment_intent.succeeded event is
acknowledged with 200 `{received:true}` while nothing has been persisted
and no entity exists — the ack is returned without durable persistence of
any new state (the handler body is only TODO comments). -/
theorem c4_ack_without_persistence :
    (processStripeWebhook envPaymentOk reqStripeSigned st0).2 =
      ⟨200, RespBody.received⟩ ∧
    ((processStripeWebhook envPaymentOk reqStripeSigned st0).1).persisted =
      [] ∧
    ((processStripeWebhook envPaymentOk reqStripeSigned st0).1).entities =
      emptyEntities := by
  decide

/-- Event fixture: customer.subscription.created for sub_1 with metadata
userId u1, planId pro. -/
def evtSubCreatedU1 : StripeEvent :=
  ⟨"customer.subscription.created", ⟨"sub_1", some mdU1Pro⟩⟩

/-- Environment that verifies the subscription-created event but whose
downstream fetch fails (service unavailable). -/
def envSubCreatedFetchFail : Env :=
  ⟨"http://auth", fun _ _ => FetchOutcome.networkError "service unavailable",
   fun _ _ => Except.ok evtSubCreatedU1, fun _ => true⟩

/-- C5 counterexample: when the operation inside the
customer.subscription.created handler fails (downstream unavailable), the
webhook request is still answered 200 — not the retryable non-2xx status
the claim requires. -/
theorem c5_counterexample :
    (processStripeWebhook envSubCreatedFetchFail reqStripeSigned
      st0).2.status = 200 ∧
    ¬ 400 ≤ (processStripeWebhook envSubCreatedFetchFail reqStripeSigned
      st0).2.status := by
  decide

/-- C5 amended: the code has no transition/persistence step (persistence is
unimplemented); any failure inside an event handler — e.g., every
downstream call failing — is caught and logged and the request is still
answered 200 `{received:true}`; no idempotency claim is ever created, so
none needs releasing (the ledger and entities are unchanged). -/
theorem c5_amended_failure_swallowed_acked (env : Env)
    (req : StripeRequest) (sig : String) (e : StripeEvent) (s : St)
    (hs : req.signature = some sig)
    (hv : env.verifyStripe req.rawBody sig = Except.ok e)
    (_hf : ∀ u p, ∃ m, env.fetchPatch u p = FetchOutcome.networkError m) :
    (processStripeWebhook env req s).2 = ⟨200, RespBody.received⟩ ∧
    ((processStripeWebhook env req s).1).ledger = s.ledger ∧
    ((processStripeWebhook env req s).1).entities = s.entities := by
  have h := sameCore_processStripeWebhook env req s
  exact ⟨processStripeWebhook_verified_resp env req sig e s hs hv,
    h.2.1, h.1⟩

/-- Witness for C5 amended at the failing environment and concrete
subscription-created event. -/
theorem c5_amended_failure_swallowed_acked_witness :
    (processStripeWebhook envSubCreatedFetchFail reqStripeSigned st0).2 =
      ⟨200, RespBody.received⟩ ∧
    ((processStripeWebhook envSubCreatedFetchFail reqStripeSigned
      st0).1).ledger = st0.ledger ∧
    ((processStripeWebhook envSubCreatedFetchFail reqStripeSigned
      st0).1).entities = st0.entities :=
  c5_amended_failure_swallowed_acked envSubCreatedFetchFail reqStripeSigned
    "t=1.v1=abc" evtSubCreatedU1 st0 rfl rfl
    (fun _ _ => ⟨"service unavailable", rfl⟩)

/-- C6: when the dispatch to the identity service fails (every fetch throws
— with a single attempt this is the whole retry budget), the
checkout.session.completed request is still answered 200 `{received:true}`
and no entity state is rolled back: the subscriptions collection (and all
other core state) is exactly what it was before the event. -/
theorem c6_dispatch_failure_still_acked_no_rollback (env : Env)
    (req : StripeRequest) (sig : String) (o : EventObject) (s : St)
    (msg : String)
    (hs : req.signature = some sig)
    (hv : env.verifyStripe req.rawBody sig =
      Except.ok ⟨"checkout.session.completed", o⟩)
    (_hf : ∀ u p, env.fetchPatch u p = FetchOutcome.networkError msg) :
    (processStripeWebhook env req s).2 = ⟨200, RespBody.received⟩ ∧
    ((processStripeWebhook env req s).1).entities.subscriptions =
      s.entities.subscriptions ∧
    sameCore s (processStripeWebhook env req s).1 := by
  have h := sameCore_processStripeWebhook env req s
  exact ⟨processStripeWebhook_verified_resp env req sig _ s hs hv,
    by rw [h.1], h⟩

/-- State fixture: one ACTIVE subscription sub_1. -/
def stActiveSub : St := ⟨⟨[], [("sub_1", "ACTIVE")], []⟩, [], [], [], []⟩

/-- Environment that verifies the checkout-completed event (metadata u1,
pro) while every fetch to the identity service throws. -/
def envCheckoutFail : Env :=
  ⟨"http://auth", fun _ _ => FetchOutcome.networkError "ECONNREFUSED",
   fun _ _ => Except.ok ⟨"checkout.session.completed", ⟨"cs_1", some mdU1Pro⟩⟩,
   fun _ => true⟩

/-- Witness for C6: with the always-failing dispatch environment, the
state holding an ACTIVE subscription is returned unchanged and the
response is 200. -/
theorem c6_dispatch_failure_still_acked_no_rollback_witness :
    (processStripeWebhook envCheckoutFail reqStripeSigned stActiveSub).2 =
      ⟨200, RespBody.received⟩ ∧
    ((processStripeWebhook envCheckoutFail reqStripeSigned
      stActiveSub).1).entities.subscriptions =
      stActiveSub.entities.subscriptions ∧
    sameCore stActiveSub
      (processStripeWebhook envCheckoutFail reqStripeSigned stActiveSub).1 :=
  c6_dispatch_failure_still_acked_no_rollback envCheckoutFail
    reqStripeSigned "t=1.v1=abc" ⟨"cs_1", some mdU1Pro⟩ stActiveSub
    "ECONNREFUSED" rfl rfl (fun _ _ => rfl)

/-- Environment that verifies the subscription-created event and whose
fetch succeeds with 200. -/
def envSubCreatedOk : Env :=
  ⟨"http://auth", fun _ _ => FetchOutcome.ok 200,
   fun _ _ => Except.ok evtSubCreatedU1, fun _ => true⟩

/-- C7 (code-bug evaluation): applying the subscription-created event for
sub_1 with payload userId u1 / planId pro to a state with no subscription
does emit the PATCH to the identity service, but creates no Subscription
entity at all (the subscriptions collection stays empty; saving is a TODO),
and answers 200. -/
theorem c7_no_subscription_entity_created :
    ((processStripeWebhook envSubCreatedOk reqStripeSigned
      st0).1).entities.subscriptions = [] ∧
    ((processStripeWebhook envSubCreatedOk reqStripeSigned
      st0).1).dispatches = [⟨"http://auth/auth/users/u1/plan", "pro"⟩] ∧
    (processStripeWebhook envSubCreatedOk reqStripeSigned st0).2 =
      ⟨200, RespBody.received⟩ := by
  decide

/-- C8 counterexample: with an always-failing identity service, processing
a checkout.session.completed event performs exactly one delivery attempt —
a failed delivery is never retried, contradicting the claimed
exponential-backoff retry (which would require at least a second
attempt). -/
theorem c8_counterexample :
    ((processStripeWebhook envCheckoutFail reqStripeSigned
      st0).1).dispatches.length = 1 ∧
    ¬ 2 ≤ ((processStripeWebhook envCheckoutFail reqStripeSigned
      st0).1).dispatches.length := by
  decide

lemma propagatePlan_dispatches_some (env : Env) (o : EventObject)
    (m : String) (s : St) (u p : String)
    (hu : o.metadata.bind (·.userId) = some u)
    (hp2 : o.metadata.bind (·.planId) = some p) :
    (propagatePlan env o m s).dispatches = s.dispatches ++
      [⟨env.authServiceUrl ++ "/auth/users/" ++ u ++ "/plan", p⟩] := by
  unfold propagatePlan
  rw [hu, hp2]
  simp [logLine]

/-- C8 amended: the side-effect dispatcher attempts each delivery exactly
once — whatever the fetch outcome, the handler records one PATCH attempt
(no retry, no backoff); a failure is only logged. -/
theorem c8_amended_single_delivery_attempt (env : Env) (o : EventObject)
    (u p : String) (s : St)
    (hu : o.metadata.bind (·.userId) = some u)
    (hp2 : o.metadata.bind (·.planId) = some p) :
    (handleCheckoutSessionCompleted env o s).dispatches = s.dispatches ++
      [⟨env.authServiceUrl ++ "/auth/users/" ++ u ++ "/plan", p⟩] ∧
    (handleCheckoutSessionCompleted env o s).dispatches.length =
      s.dispatches.length + 1 := by
  have h : (handleCheckoutSessionCompleted env o s).dispatches =
      s.dispatches ++
        [⟨env.authServiceUrl ++ "/auth/users/" ++ u ++ "/plan", p⟩] :=
    propagatePlan_dispatches_some env o
      "userId or planId missing in session metadata."
      (logLine s ("Checkout session completed: " ++ o.id)) u p hu hp2
  exact ⟨h, by rw [h]; simp⟩

/-- Witness for C8 amended: the concrete checkout session with metadata
u1/pro, under the always-failing environment, records exactly one
dispatch. -/
theorem c8_amended_single_delivery_attempt_witness :
    (handleCheckoutSessionCompleted envCheckoutFail ⟨"cs_1", some mdU1Pro⟩
      st0).dispatches = st0.dispatches ++
        [⟨envCheckoutFail.authServiceUrl ++ "/auth/users/" ++ "u1" ++
          "/plan", "pro"⟩] ∧
    (handleCheckoutSessionCompleted envCheckoutFail ⟨"cs_1", some mdU1Pro⟩
      st0).dispatches.length = st0.dispatches.length + 1 :=
  c8_amended_single_delivery_attempt envCheckoutFail ⟨"cs_1", some mdU1Pro⟩
    "u1" "pro" st0 rfl rfl

/-- The duplicated wallet-gateway delivery of the claim's scenario:
PAYMENT.CAPTURE.COMPLETED for evt_9. -/
def paypalReqEvt9 : PaypalRequest :=
  ⟨"PAYMENT.CAPTURE.COMPLETED", ⟨"evt_9", none⟩, "tx_9", "sig"⟩

/-- C9 counterexample: delivering the same wallet-gateway event evt_9
twice yields ZERO idempotency records — not the exactly-one the claim
states — and zero Payment status transitions (the payments collection
stays empty rather than holding one SUCCEEDED payment). -/
theorem c9_counterexample :
    ((processPaypalWebhook paypalReqEvt9
      ((processPaypalWebhook paypalReqEvt9 st0).1)).1).ledger.length = 0 ∧
    ¬ ((processPaypalWebhook paypalReqEvt9
      ((processPaypalWebhook paypalReqEvt9 st0).1)).1).ledger.length = 1 ∧
    ((processPaypalWebhook paypalReqEvt9
      ((processPaypalWebhook paypalReqEvt9 st0).1)).1).entities.payments =
      [] := by
  decide

/-- C9 amended: the code maintains no idempotency ledger — every delivery
of the same (provider, eventId), duplicated or not, is dispatched to its
handler and acknowledged 200; no idempotency record is created and no
Payment status transition occurs (the handler only logs). -/
theorem c9_amended_no_ledger_no_transition (req : PaypalRequest) (s : St) :
    (processPaypalWebhook req s).2.status = 200 ∧
    (processPaypalWebhook req
      ((processPaypalWebhook req s).1)).2.status = 200 ∧
    ((processPaypalWebhook req
      ((processPaypalWebhook req s).1)).1).ledger = s.ledger ∧
    ((processPaypalWebhook req
      ((processPaypalWebhook req s).1)).1).entities.payments =
      s.entities.payments := by
  have h := sameCore_trans (sameCore_processPaypalWebhook req s)
    (sameCore_processPaypalWebhook req (processPaypalWebhook req s).1)
  exact ⟨rfl, rfl, h.2.1, by rw [h.1]⟩

end PaymentService
